import Mathlib

/-!
Verification of the Stripe webhook receiver (`src/index.ts`, full and simple
variants) against its specification.

The webhook handler is embedded shallowly: the durable store is a pair of
lists (checkout-session rows and user rows), the Stripe line-item lookup and
possible store/user-step failures are injected through an environment record,
and console output is modelled as a list of log events carrying exactly the
identifying fields the source includes in each console call.
-/

namespace StripeWebhook

/-- JavaScript `hay.includes(needle)` on chars: `listIsPre n l` is `n` a
leading segment of `l`. -/
def listIsPre : List Char → List Char → Bool
  | [], _ => true
  | _ :: _, [] => false
  | a :: as, b :: bs => a == b && listIsPre as bs

/-- Predicate `listHasSub needle hay`: does `needle` occur contiguously in `hay`? -/
def listHasSub (needle : List Char) : List Char → Bool
  | [] => needle.isEmpty
  | c :: rest => listIsPre needle (c :: rest) || listHasSub needle rest

/-- JavaScript `hay.includes(needle)` for strings. -/
def strIncludes (hay needle : String) : Bool :=
  listHasSub needle.toList hay.toList

/-- JavaScript `s.split(" ")` on chars: split at every single space keeping
empty segments; the split of the empty string is `[[]]`. -/
def splitChars : List Char → List (List Char)
  | [] => [[]]
  | c :: rest =>
    match splitChars rest with
    | [] => [[]]
    | w :: ws => if c = ' ' then [] :: w :: ws else (c :: w) :: ws

/-- JavaScript `s.split(" ")`. -/
def jsSplitSpace (s : String) : List String :=
  (splitChars s.toList).map (fun cs => ⟨cs⟩)

/-- JavaScript `parts.join(" ")`. -/
def joinSpace : List String → String
  | [] => ""
  | [s] => s
  | s :: rest => s ++ " " ++ joinSpace rest

/-- User types of the Prisma `UserType` enum (`prisma/seed.ts`). -/
inductive UserType
  | Free
  | GreatAwakener
  | VirtualOracle
  | NonMember
deriving DecidableEq, Repr

/-- A row of the `user` table (fields touched by this flow). -/
structure User where
  firstName : String
  lastName : String
  email : String
  userType : UserType
  hasAstrology : Bool
deriving DecidableEq, Repr

/-- A row of the `checkoutSession` table, as created by the handlers. -/
structure SessionRow where
  stripeSessionId : String
  customerId : Option String
  customerEmail : Option String
  amountTotal : Int
  currency : String
  paymentStatus : String
deriving DecidableEq, Repr

/-- The durable store: the two tables this flow touches. -/
structure DB where
  sessions : List SessionRow
  users : List User
deriving DecidableEq, Repr

/-- Field `session.customer`: either a bare customer-id string or an expanded
customer object (of which the handler only reads `.id`). -/
inductive CustomerRef
  | cid (s : String)
  | cobj (id : String)
deriving DecidableEq, Repr

/-- Field `session.customer_details` (may be null; its fields may be null). -/
structure CustomerDetails where
  email : Option String
  name : Option String
deriving DecidableEq, Repr

/-- The `checkout.session` object carried in `event.data.object`. -/
structure SessionObj where
  id : String
  customer : Option CustomerRef
  customer_details : Option CustomerDetails
  amount_total : Option Int
  currency : Option String
  payment_status : Option String
deriving DecidableEq, Repr

/-- The event envelope returned by `stripe.webhooks.constructEvent`:
a `type` discriminator and the payload object (`data.object`), absent when
`event.data` is null. -/
structure Event where
  type : String
  data : Option SessionObj
deriving DecidableEq, Repr

/-- A JavaScript thrown value: an `Error` with a message, or any non-Error
throw (the `instanceof Error` test distinguishes the two). -/
inductive Thrown
  | jsError (message : String)
  | nonError
deriving DecidableEq, Repr

/-- Behaviour of the store during `prisma.checkoutSession.create`: `normal`
(only a duplicate key makes it throw) or an injected outage throwing `t`. -/
inductive StoreCreate
  | normal
  | failWith (t : Thrown)
deriving DecidableEq, Repr

/-- Field `item.price.product` after expanding `data.price.product`: either a
bare product-id string (not expanded) or an expanded product object. -/
inductive ProductRef
  | pstr (s : String)
  | pobj (id : String) (name : String)
deriving DecidableEq, Repr

/-- One line item; `product = none` models `item.price` being null
(so `item.price?.product` is undefined). -/
structure LineItem where
  product : Option ProductRef
deriving DecidableEq, Repr

/-- Result of `stripe.checkout.sessions.listLineItems`: the call throws,
returns a listing whose `data` is null, or returns `data = items`. -/
inductive LineItemsResp
  | fail
  | noData
  | ok (items : List LineItem)
deriving DecidableEq, Repr

/-- Injected behaviour of the external collaborators during one request. -/
structure Env where
  storeCreate : StoreCreate
  lineItems : LineItemsResp
  userOpFails : Bool
deriving DecidableEq, Repr

/-- One inbound request: presence of the signature header and configured
secret, whether `constructEvent` verifies, and the event it yields. -/
structure Req where
  hasSig : Bool
  hasSecret : Bool
  sigOk : Bool
  event : Event
deriving DecidableEq, Repr

/-- Console output of the full handler, one constructor per console call,
carrying exactly the session-id / email fields that call includes. -/
inductive LogEvent
  | errMissingCreds
  | errSigVerification
  | errInvalidEvent
  | infoCheckoutCompleted (sessionId : String) (email : Option String)
  | errInvalidSession
  | infoSessionSaved (sessionId : String)
  | warnDuplicateSession (sessionId : String)
  | warnNoLineItems (sessionId : String)
  | infoUpdatedUser (email : String)
  | infoCreatedUser (email : String)
  | errUserStepFailed (email : String) (sessionId : String)
  | errLineItemsFailed (sessionId : String)
  | errCritical (sessionId : String)
deriving DecidableEq, Repr

/-- The customer email a log entry carries, if any. -/
def logEmailOf : LogEvent → Option String
  | .infoCheckoutCompleted _ e => e
  | .infoUpdatedUser e => some e
  | .infoCreatedUser e => some e
  | .errUserStepFailed e _ => some e
  | _ => none

/-- The session id a log entry carries, if any. -/
def logSessionIdOf : LogEvent → Option String
  | .infoCheckoutCompleted s _ => some s
  | .errInvalidSession => none
  | .infoSessionSaved s => some s
  | .warnDuplicateSession s => some s
  | .warnNoLineItems s => some s
  | .errUserStepFailed _ s => some s
  | .errLineItemsFailed s => some s
  | .errCritical s => some s
  | _ => none

/-- Does the log entry witness that the user step ran (a `prisma.user`
update or create, or the catch around them)? -/
def isUserStepLog : LogEvent → Bool
  | .infoUpdatedUser _ => true
  | .infoCreatedUser _ => true
  | .errUserStepFailed _ _ => true
  | _ => false

/-- Test `dbError instanceof Error && dbError.message.includes("Unique constraint")`
(line 174 of the full handler). -/
def isUniqueViolation : Thrown → Bool
  | .jsError m => strIncludes m "Unique constraint"
  | .nonError => false

/-- Expression `typeof session.customer === "string" ? session.customer
: session.customer?.id || null` — note a bare string is kept even when
empty, while an object id falls back to null when falsy. -/
def customerIdOf : Option CustomerRef → Option String
  | some (.cid s) => some s
  | some (.cobj i) => if i = "" then none else some i
  | none => none

/-- Expression `session.customer_details?.email || null` (empty string is falsy). -/
def cdEmail : Option CustomerDetails → Option String
  | none => none
  | some cd =>
    match cd.email with
    | none => none
    | some e => if e = "" then none else some e

/-- Expression `session.customer_details?.email` as logged raw (no falsy coercion). -/
def rawEmail : Option CustomerDetails → Option String
  | none => none
  | some cd => cd.email

/-- JavaScript `x || d` on a nullable string (empty string is falsy). -/
def orElseStr : Option String → String → String
  | none, d => d
  | some s, d => if s = "" then d else s

/-- Expression `session.amount_total || 0`. -/
def amountTotalOf : Option Int → Int
  | none => 0
  | some n => n

/-- The row the full handler passes to `prisma.checkoutSession.create`
(lines 162-171). -/
def mkRow (s : SessionObj) : SessionRow :=
  { stripeSessionId := s.id
    customerId := customerIdOf s.customer
    customerEmail := cdEmail s.customer_details
    amountTotal := amountTotalOf s.amount_total
    currency := orElseStr s.currency "usd"
    paymentStatus := orElseStr s.payment_status "unknown" }

/-- The row the simple handler creates: identical but with no
`customerEmail` field, so the column stays null. -/
def mkRowSimple (s : SessionObj) : SessionRow :=
  { mkRow s with customerEmail := none }

/-- Call `prisma.checkoutSession.create` with the unique constraint on
`stripeSessionId`: under `normal` behaviour a duplicate key throws the
unique-constraint `Error` of the store; an injected outage throws its own value. -/
def createSession (beh : StoreCreate) (sessions : List SessionRow)
    (row : SessionRow) : Except Thrown (List SessionRow) :=
  match beh with
  | .failWith t => .error t
  | .normal =>
    if sessions.any (fun r => r.stripeSessionId == row.stripeSessionId) then
      .error (.jsError "Unique constraint failed on the fields: (`stripeSessionId`)")
    else
      .ok (sessions ++ [row])

/-- Expression `session.customer_details?.name?.split(" ")[0] || "Unknown"`
(line 220); `jsSplitSpace` mirrors the JavaScript split semantics. -/
def firstNameOf : Option String → String
  | none => "Unknown"
  | some nm =>
    let t := (jsSplitSpace nm).headD ""
    if t = "" then "Unknown" else t

/-- Expression `session.customer_details?.name?.split(" ").slice(1).join(" ") || "User"`
(line 221). -/
def lastNameOf : Option String → String
  | none => "User"
  | some nm =>
    let r := joinSpace ((nm |> jsSplitSpace).drop 1)
    if r = "" then "User" else r

/-- The user created for a qualifying purchase with no existing user
(lines 217-225). -/
def mkNewUser (email : String) (nameOpt : Option String) : User :=
  { firstName := firstNameOf nameOpt
    lastName := lastNameOf nameOpt
    email := email
    userType := .NonMember
    hasAstrology := true }

/-- Test `lineItems.data.some(...)` (lines 191-201): a line item matches only
if its product is an expanded object (`typeof product === "object"`) whose id
or name equals that of the designated product. -/
def itemMatchesAstrology (item : LineItem) : Bool :=
  match item.product with
  | some (.pobj id name) =>
    id == "prod_TUrnEqRRgTx9Gz" || name == "Astrology Time Zone"
  | _ => false

/-- Fold of the per-item test over `lineItems.data` (line 191). -/
def astrologyProductPurchased (items : List LineItem) : Bool :=
  items.any itemMatchesAstrology

/-- Result of one request: HTTP status, store afterwards, console log. -/
structure HRes where
  status : Nat
  db : DB
  log : List LogEvent
deriving DecidableEq, Repr

/-- The entitlement step of the full handler (lines 181-246): guarded by a
present, non-empty customer email; the line-item lookup and the user
find/update/create each sit in their own try/catch, so no failure escapes. -/
def entitlementStep (env : Env) (s : SessionObj) (db : DB)
    (log : List LogEvent) : DB × List LogEvent :=
  match cdEmail s.customer_details with
  | none => (db, log)
  | some email =>
    match env.lineItems with
    | .fail => (db, log ++ [.errLineItemsFailed s.id])
    | .noData => (db, log ++ [.warnNoLineItems s.id])
    | .ok items =>
      if astrologyProductPurchased items then
        if env.userOpFails then
          (db, log ++ [.errUserStepFailed email s.id])
        else
          match db.users.find? (fun u => u.email == email) with
          | some _ =>
            ({ db with
                users := db.users.map fun u =>
                  if u.email == email then { u with hasAstrology := true } else u },
              log ++ [.infoUpdatedUser email])
          | none =>
            ({ db with
                users := db.users ++
                  [mkNewUser email (s.customer_details.bind CustomerDetails.name)] },
              log ++ [.infoCreatedUser email])
      else (db, log)

/-- The `checkout.session.completed` branch of the full handler
(lines 138-269): log the session, validate its id, create the row
(downgrading a unique-constraint error to a duplicate warning), run the
entitlement step, and map a rethrown create error to a 500. -/
def handleCompleted (env : Env) (db : DB) (s : SessionObj) : HRes :=
  let log0 : List LogEvent :=
    [.infoCheckoutCompleted s.id (rawEmail s.customer_details)]
  if s.id = "" then
    ⟨400, db, log0 ++ [.errInvalidSession]⟩
  else
    match createSession env.storeCreate db.sessions (mkRow s) with
    | .ok sessions' =>
      let p := entitlementStep env s { db with sessions := sessions' }
        (log0 ++ [.infoSessionSaved s.id])
      ⟨200, p.1, p.2⟩
    | .error t =>
      if isUniqueViolation t then
        let p := entitlementStep env s db (log0 ++ [.warnDuplicateSession s.id])
        ⟨200, p.1, p.2⟩
      else
        ⟨500, db, log0 ++ [.errCritical s.id]⟩

/-- The full webhook handler (`src/unnamed/part_000`, lines 94-273):
credential check, signature verification, structural validation, then the
completed branch; any other event type is acknowledged with 200. -/
def fullHandler (env : Env) (db : DB) (req : Req) : HRes :=
  if req.hasSig = false ∨ req.hasSecret = false then
    ⟨400, db, [.errMissingCreds]⟩
  else if req.sigOk = false then
    ⟨400, db, [.errSigVerification]⟩
  else if req.event.type = "" ∨ req.event.data = none then
    ⟨400, db, [.errInvalidEvent]⟩
  else
    match req.event.data with
    | none => ⟨400, db, [.errInvalidEvent]⟩
    | some s =>
      if req.event.type = "checkout.session.completed" then
        handleCompleted env db s
      else
        ⟨200, db, []⟩

/-- The simple webhook handler (`src/src/index.ts`, lines 15-77): same
credential and signature checks, no structural validation, and a create
whose catch swallows every store error ("Continue execution even if
database save fails") before responding 200. `none` models the unhandled
throw when `event.data` is absent (no response is sent). -/
def simpleHandler (env : Env) (db : DB) (req : Req) : Option (Nat × DB) :=
  if req.hasSig = false ∨ req.hasSecret = false then
    some (400, db)
  else if req.sigOk = false then
    some (400, db)
  else if req.event.type = "checkout.session.completed" then
    match req.event.data with
    | none => none
    | some s =>
      match createSession env.storeCreate db.sessions (mkRowSimple s) with
      | .ok sessions' => some (200, { db with sessions := sessions' })
      | .error _ => some (200, db)
  else
    some (200, db)

/-- Modelled from the spec wording of the membership test: the spec credits
an id match also "when the product reference is not expanded", i.e. when it
is a bare product-id string. Declared only to compare the spec description
with `astrologyProductPurchased`; the source is `astrologyProductPurchased`. -/
def astrologyPurchasedSpecC4 (items : List LineItem) : Bool :=
  items.any fun item =>
    match item.product with
    | some (.pobj id name) =>
      id == "prod_TUrnEqRRgTx9Gz" || name == "Astrology Time Zone"
    | some (.pstr sId) => sId == "prod_TUrnEqRRgTx9Gz"
    | none => false

/-! Concrete inputs used by witnesses and counterexamples. -/

/-- A completed checkout session carrying the two-token display name of the
new-customer test of the spec. -/
def sessionAda : SessionObj :=
  ⟨"cs_1", none, some ⟨some "new@example.com", some "Ada Lovelace"⟩,
    some 5000, some "usd", some "paid"⟩

/-- A verified request delivering `sessionAda`. -/
def reqAda : Req :=
  ⟨true, true, true, ⟨"checkout.session.completed", some sessionAda⟩⟩

/-- The same session but with the single-token display name "Ada". -/
def sessionAdaOnly : SessionObj :=
  ⟨"cs_2", none, some ⟨some "new@example.com", some "Ada"⟩,
    some 5000, some "usd", some "paid"⟩

/-- A verified request delivering `sessionAdaOnly`. -/
def reqAdaOnly : Req :=
  ⟨true, true, true, ⟨"checkout.session.completed", some sessionAdaOnly⟩⟩

/-- A completed session with no customer email. -/
def sessionNoEmail : SessionObj :=
  ⟨"cs_3", none, some ⟨none, none⟩, none, none, none⟩

/-- A verified request delivering `sessionNoEmail`. -/
def reqNoEmail : Req :=
  ⟨true, true, true, ⟨"checkout.session.completed", some sessionNoEmail⟩⟩

/-- A line item whose product is expanded and is the designated product. -/
def matchingItem : LineItem :=
  ⟨some (.pobj "prod_TUrnEqRRgTx9Gz" "Astrology Time Zone")⟩

/-- A line item whose product reference is the bare designated product id. -/
def bareIdItem : LineItem := ⟨some (.pstr "prod_TUrnEqRRgTx9Gz")⟩

/-- Healthy collaborators delivering one matching line item. -/
def envOk : Env := ⟨.normal, .ok [matchingItem], false⟩

/-- A store outage unrelated to uniqueness during the session create. -/
def envOutage : Env := ⟨.failWith (.jsError "connection refused"), .ok [matchingItem], false⟩

/-- A store outage throwing a non-Error value during the session create. -/
def envOutageNonError : Env := ⟨.failWith .nonError, .ok [matchingItem], false⟩

/-- An injected create failure carrying the unique-constraint message. -/
def envUniqueThrow : Env :=
  ⟨.failWith (.jsError "Unique constraint failed on the fields: (`stripeSessionId`)"),
    .ok [matchingItem], false⟩

/-- An outage of the external line-item lookup. -/
def envLineItemsDown : Env := ⟨.normal, .fail, false⟩

/-- A failing user find/update/create step. -/
def envUserDown : Env := ⟨.normal, .ok [matchingItem], true⟩

/-- The empty store. -/
def dbEmpty : DB := ⟨[], []⟩

/-- A store already holding a user record under the witnessed email. -/
def dbWithAda : DB :=
  ⟨[], [⟨"Alice", "Smith", "new@example.com", .Free, false⟩]⟩

/-! Shared lemmas about the handler. -/

/-- The entitlement step never touches the checkout-session table. -/
theorem entitlementStep_sessions (env : Env) (s : SessionObj) (db : DB)
    (log : List LogEvent) :
    (entitlementStep env s db log).1.sessions = db.sessions := by
  unfold entitlementStep
  repeat' split
  all_goals rfl

/-- The entitlement step only appends to the log. -/
theorem entitlementStep_log (env : Env) (s : SessionObj) (db : DB)
    (log : List LogEvent) :
    ∃ t, (entitlementStep env s db log).2 = log ++ t := by
  unfold entitlementStep
  repeat' split
  all_goals first
    | exact ⟨[], (List.append_nil log).symm⟩
    | exact ⟨_, rfl⟩

/-- On a verified, structurally valid completed event the full handler runs
its completed branch. -/
theorem fullHandler_completed (env : Env) (db : DB) (req : Req) (s : SessionObj)
    (h1 : req.hasSig = true) (h2 : req.hasSecret = true) (h3 : req.sigOk = true)
    (h4 : req.event.type = "checkout.session.completed")
    (h5 : req.event.data = some s) :
    fullHandler env db req = handleCompleted env db s := by
  simp [fullHandler, h1, h2, h3, h4, h5]

/-- If the completed branch answers 500 the store is untouched. -/
theorem handleCompleted_500 (env : Env) (db : DB) (s : SessionObj)
    (h : (handleCompleted env db s).status = 500) :
    (handleCompleted env db s).db = db := by
  unfold handleCompleted at h ⊢
  by_cases hid : s.id = ""
  · rw [if_pos hid] at h
    simp at h
  · rw [if_neg hid] at h ⊢
    cases hc : createSession env.storeCreate db.sessions (mkRow s) with
    | ok sessions2 =>
      rw [hc] at h
      simp at h
    | error t =>
      rw [hc] at h
      dsimp only at h ⊢
      by_cases hu : isUniqueViolation t = true
      · rw [if_pos hu] at h
        simp at h
      · rw [if_neg hu]

/-- An `Error` containing the exact classification substring is exactly what
`isUniqueViolation` accepts. -/
theorem isUniqueViolation_iff (t : Thrown) :
    isUniqueViolation t = true ↔
      ∃ m, t = Thrown.jsError m ∧ strIncludes m "Unique constraint" = true := by
  cases t with
  | jsError m =>
    simp [isUniqueViolation]
  | nonError =>
    simp [isUniqueViolation]

/-- C8: a request missing the signature header or the configured webhook
secret is answered 400 by both handler variants and neither store table is
written. -/
theorem missing_credentials_rejected (env : Env) (db : DB) (req : Req)
    (h : req.hasSig = false ∨ req.hasSecret = false) :
    fullHandler env db req = ⟨400, db, [.errMissingCreds]⟩ ∧
    simpleHandler env db req = some (400, db) := by
  constructor
  · unfold fullHandler
    rw [if_pos h]
  · unfold simpleHandler
    rw [if_pos h]

/-- C8 witness: a concrete request without the signature header. -/
theorem missing_credentials_rejected_wit :
    fullHandler envOk dbEmpty ⟨false, true, true, reqAda.event⟩ =
      ⟨400, dbEmpty, [.errMissingCreds]⟩ ∧
    simpleHandler envOk dbEmpty ⟨false, true, true, reqAda.event⟩ =
      some (400, dbEmpty) :=
  missing_credentials_rejected envOk dbEmpty ⟨false, true, true, reqAda.event⟩
    (Or.inl rfl)

/-- C9: in the full variant every 500 response leaves the users table
exactly as it was before the request. -/
theorem http500_leaves_users_unchanged (env : Env) (db : DB) (req : Req)
    (h : (fullHandler env db req).status = 500) :
    (fullHandler env db req).db.users = db.users := by
  unfold fullHandler at h ⊢
  by_cases h1 : req.hasSig = false ∨ req.hasSecret = false
  · rw [if_pos h1] at h
    simp at h
  · rw [if_neg h1] at h ⊢
    by_cases h2 : req.sigOk = false
    · rw [if_pos h2] at h
      simp at h
    · rw [if_neg h2] at h ⊢
      by_cases h3 : req.event.type = "" ∨ req.event.data = none
      · rw [if_pos h3] at h
        simp at h
      · rw [if_neg h3] at h ⊢
        cases hd : req.event.data with
        | none =>
          rw [hd] at h
        | some s =>
          rw [hd] at h
          dsimp only at h ⊢
          by_cases h4 : req.event.type = "checkout.session.completed"
          · rw [if_pos h4] at h ⊢
            rw [handleCompleted_500 env db s h]
          · rw [if_neg h4] at h
            simp at h

/-- C9 witness: a non-unique store outage produces a 500 and the (empty)
users table is untouched. -/
theorem http500_leaves_users_unchanged_wit :
    (fullHandler envOutage dbEmpty reqAda).status = 500 ∧
    (fullHandler envOutage dbEmpty reqAda).db.users = dbEmpty.users :=
  ⟨by decide, http500_leaves_users_unchanged envOutage dbEmpty reqAda (by decide)⟩

/-- C10: with an injected create failure throwing `t` on a valid completed
event, the request succeeds (200) exactly when `t` is an `Error` whose
message contains the substring "Unique constraint", and is answered 500
exactly otherwise. -/
theorem duplicate_classification (env : Env) (db : DB) (req : Req)
    (s : SessionObj) (t : Thrown)
    (h1 : req.hasSig = true) (h2 : req.hasSecret = true) (h3 : req.sigOk = true)
    (h4 : req.event.type = "checkout.session.completed")
    (h5 : req.event.data = some s) (hid : s.id ≠ "")
    (hc : env.storeCreate = .failWith t) :
    ((fullHandler env db req).status = 200 ↔
      ∃ m, t = Thrown.jsError m ∧ strIncludes m "Unique constraint" = true) ∧
    ((fullHandler env db req).status = 500 ↔
      ¬ ∃ m, t = Thrown.jsError m ∧ strIncludes m "Unique constraint" = true) := by
  rw [fullHandler_completed env db req s h1 h2 h3 h4 h5]
  unfold handleCompleted
  rw [if_neg hid, hc]
  simp only [createSession]
  rw [← isUniqueViolation_iff]
  by_cases hu : isUniqueViolation t = true
  · rw [if_pos hu]
    constructor
    · exact ⟨fun _ => hu, fun _ => rfl⟩
    · exact ⟨fun hcontra => absurd hcontra (by simp), fun hn => absurd hu hn⟩
  · rw [if_neg hu]
    constructor
    · exact ⟨fun hcontra => absurd hcontra (by simp), fun hp => absurd hp hu⟩
    · exact ⟨fun _ => hu, fun _ => rfl⟩

/-- C10 witness: an injected create failure carrying Prisma's
unique-constraint wording is treated as a duplicate (200, not 500). -/
theorem duplicate_classification_wit :
    ((fullHandler envUniqueThrow dbEmpty reqAda).status = 200 ↔
      ∃ m, Thrown.jsError "Unique constraint failed on the fields: (`stripeSessionId`)"
          = Thrown.jsError m ∧ strIncludes m "Unique constraint" = true) ∧
    ((fullHandler envUniqueThrow dbEmpty reqAda).status = 500 ↔
      ¬ ∃ m, Thrown.jsError "Unique constraint failed on the fields: (`stripeSessionId`)"
          = Thrown.jsError m ∧ strIncludes m "Unique constraint" = true) :=
  duplicate_classification envUniqueThrow dbEmpty reqAda sessionAda
    (Thrown.jsError "Unique constraint failed on the fields: (`stripeSessionId`)")
    rfl rfl rfl rfl rfl (by decide) rfl

/-- C1 counterexample: in the simple variant a create failure that is no
uniqueness violation — here "connection refused" — is swallowed and the
request is answered 200, not 500, with nothing persisted. -/
theorem simpleVariant_outage_responds_200 :
    envOutage.storeCreate = .failWith (.jsError "connection refused") ∧
    isUniqueViolation (.jsError "connection refused") = false ∧
    simpleHandler envOutage dbEmpty reqAda = some (200, dbEmpty) := by
  decide

/-- C1 (amended): on a valid completed event whose create fails with a
non-uniqueness error, the full variant responds 500, while the simple
variant swallows the failure and responds 200. -/
theorem nonUnique_create_failure_responses (env : Env) (db : DB) (req : Req)
    (s : SessionObj) (t : Thrown)
    (h1 : req.hasSig = true) (h2 : req.hasSecret = true) (h3 : req.sigOk = true)
    (h4 : req.event.type = "checkout.session.completed")
    (h5 : req.event.data = some s) (hid : s.id ≠ "")
    (hc : env.storeCreate = .failWith t)
    (hnu : isUniqueViolation t = false) :
    (fullHandler env db req).status = 500 ∧
    simpleHandler env db req = some (200, db) := by
  constructor
  · rw [fullHandler_completed env db req s h1 h2 h3 h4 h5]
    unfold handleCompleted
    rw [if_neg hid, hc]
    simp only [createSession]
    rw [if_neg (by simp [hnu])]
  · unfold simpleHandler
    rw [if_neg (by simp [h1, h2]), if_neg (by simp [h3]), if_pos h4, h5, hc]
    simp only [createSession]

/-- C1 witness: a concrete "connection refused" outage — 500 from the full
variant, 200 from the simple variant. -/
theorem nonUnique_create_failure_responses_wit :
    (fullHandler envOutage dbEmpty reqAda).status = 500 ∧
    simpleHandler envOutage dbEmpty reqAda = some (200, dbEmpty) :=
  nonUnique_create_failure_responses envOutage dbEmpty reqAda sessionAda
    (.jsError "connection refused") rfl rfl rfl rfl rfl (by decide) rfl (by decide)

/-- Completed branch when no row with this session id exists and the store
is healthy: the row is appended and the entitlement step runs. -/
theorem handleCompleted_fresh (env : Env) (db : DB) (s : SessionObj)
    (hid : s.id ≠ "") (hc : env.storeCreate = .normal)
    (hfresh : db.sessions.any (fun r => r.stripeSessionId == s.id) = false) :
    handleCompleted env db s =
      ⟨200,
        (entitlementStep env s { db with sessions := db.sessions ++ [mkRow s] }
          [.infoCheckoutCompleted s.id (rawEmail s.customer_details),
            .infoSessionSaved s.id]).1,
        (entitlementStep env s { db with sessions := db.sessions ++ [mkRow s] }
          [.infoCheckoutCompleted s.id (rawEmail s.customer_details),
            .infoSessionSaved s.id]).2⟩ := by
  unfold handleCompleted
  rw [if_neg hid, hc]
  simp only [createSession]
  rw [if_neg (by simp only [mkRow]; simp [hfresh])]
  rfl

/-- Completed branch when a row with this session id already exists and the
store is healthy: the unique-constraint error is downgraded to a duplicate
warning and the entitlement step still runs on the unchanged store. -/
theorem handleCompleted_dup (env : Env) (db : DB) (s : SessionObj)
    (hid : s.id ≠ "") (hc : env.storeCreate = .normal)
    (hdup : db.sessions.any (fun r => r.stripeSessionId == s.id) = true) :
    handleCompleted env db s =
      ⟨200,
        (entitlementStep env s db
          [.infoCheckoutCompleted s.id (rawEmail s.customer_details),
            .warnDuplicateSession s.id]).1,
        (entitlementStep env s db
          [.infoCheckoutCompleted s.id (rawEmail s.customer_details),
            .warnDuplicateSession s.id]).2⟩ := by
  unfold handleCompleted
  rw [if_neg hid, hc]
  simp only [createSession]
  rw [if_pos (by simp only [mkRow]; simp [hdup])]
  dsimp only
  rw [if_pos (by decide)]
  rfl

/-- Without a (non-empty) customer email the entitlement step is a no-op. -/
theorem entitlementStep_noEmail (env : Env) (s : SessionObj) (db : DB)
    (log : List LogEvent) (hem : cdEmail s.customer_details = none) :
    entitlementStep env s db log = (db, log) := by
  unfold entitlementStep
  rw [hem]

/-- A line-item lookup outage or a failing user step leaves the users table
unchanged. -/
theorem entitlementStep_users_fail (env : Env) (s : SessionObj) (db : DB)
    (log : List LogEvent)
    (hfail : env.lineItems = .fail ∨ env.userOpFails = true) :
    (entitlementStep env s db log).1.users = db.users := by
  unfold entitlementStep
  repeat' split
  any_goals rfl
  all_goals rcases hfail with hf | hf <;> simp_all

/-- The log entry the entitlement step emits for a line-item lookup outage
or for a failing user step. -/
theorem entitlementStep_fail_log (env : Env) (s : SessionObj) (db : DB)
    (log : List LogEvent) (email : String)
    (hem : cdEmail s.customer_details = some email)
    (hfail : env.lineItems = .fail ∨
      ∃ items, env.lineItems = .ok items ∧ astrologyProductPurchased items = true ∧
        env.userOpFails = true) :
    LogEvent.errLineItemsFailed s.id ∈ (entitlementStep env s db log).2 ∨
    LogEvent.errUserStepFailed email s.id ∈ (entitlementStep env s db log).2 := by
  unfold entitlementStep
  rw [hem]
  rcases hfail with hf | ⟨items, hf, hpur, hu⟩
  · rw [hf]
    exact Or.inl (by simp)
  · rw [hf]
    dsimp only
    rw [if_pos hpur, if_pos hu]
    exact Or.inr (by simp)

/-- C2: delivering the same completed event twice against a healthy store
answers 200 both times, leaves exactly one row with that session id, and the
second delivery logs a duplicate instead of erroring. -/
theorem duplicate_delivery_idempotent (env1 env2 : Env) (db : DB) (req : Req)
    (s : SessionObj)
    (h1 : req.hasSig = true) (h2 : req.hasSecret = true) (h3 : req.sigOk = true)
    (h4 : req.event.type = "checkout.session.completed")
    (h5 : req.event.data = some s) (hid : s.id ≠ "")
    (hc1 : env1.storeCreate = .normal) (hc2 : env2.storeCreate = .normal)
    (hfresh : db.sessions.any (fun r => r.stripeSessionId == s.id) = false) :
    (fullHandler env1 db req).status = 200 ∧
    (fullHandler env2 (fullHandler env1 db req).db req).status = 200 ∧
    ((fullHandler env2 (fullHandler env1 db req).db req).db.sessions.filter
        (fun r => r.stripeSessionId == s.id)).length = 1 ∧
    LogEvent.warnDuplicateSession s.id ∈
      (fullHandler env2 (fullHandler env1 db req).db req).log := by
  have e1 := (fullHandler_completed env1 db req s h1 h2 h3 h4 h5).trans
    (handleCompleted_fresh env1 db s hid hc1 hfresh)
  have hs1 : (fullHandler env1 db req).db.sessions = db.sessions ++ [mkRow s] := by
    rw [e1]
    exact entitlementStep_sessions env1 s _ _
  have hdup2 : ((fullHandler env1 db req).db.sessions.any
      (fun r => r.stripeSessionId == s.id)) = true := by
    rw [hs1]
    simp [List.any_append, mkRow]
  have e2 := (fullHandler_completed env2 (fullHandler env1 db req).db req s
      h1 h2 h3 h4 h5).trans
    (handleCompleted_dup env2 (fullHandler env1 db req).db s hid hc2 hdup2)
  have hs2 : (fullHandler env2 (fullHandler env1 db req).db req).db.sessions
      = db.sessions ++ [mkRow s] := by
    rw [e2]
    exact (entitlementStep_sessions env2 s _ _).trans hs1
  refine ⟨?_, ?_, ?_, ?_⟩
  · rw [e1]
  · rw [e2]
  · rw [hs2, List.filter_append]
    have hnil : db.sessions.filter (fun r => r.stripeSessionId == s.id) = [] := by
      rw [List.filter_eq_nil_iff]
      intro a ha hpa
      have : db.sessions.any (fun r => r.stripeSessionId == s.id) = true :=
        List.any_eq_true.mpr ⟨a, ha, hpa⟩
      rw [hfresh] at this
      exact Bool.noConfusion this
    rw [hnil]
    simp [mkRow]
  · rw [e2]
    obtain ⟨t, ht⟩ := entitlementStep_log env2 s (fullHandler env1 db req).db
      [.infoCheckoutCompleted s.id (rawEmail s.customer_details),
        .warnDuplicateSession s.id]
    have : (⟨200,
        (entitlementStep env2 s (fullHandler env1 db req).db
          [.infoCheckoutCompleted s.id (rawEmail s.customer_details),
            .warnDuplicateSession s.id]).1,
        (entitlementStep env2 s (fullHandler env1 db req).db
          [.infoCheckoutCompleted s.id (rawEmail s.customer_details),
            .warnDuplicateSession s.id]).2⟩ : HRes).log
        = [.infoCheckoutCompleted s.id (rawEmail s.customer_details),
            .warnDuplicateSession s.id] ++ t := ht
    rw [this]
    simp

/-- C2 witness: the same concrete completed event delivered twice. -/
theorem duplicate_delivery_idempotent_wit :
    (fullHandler envOk dbEmpty reqAda).status = 200 ∧
    (fullHandler envOk (fullHandler envOk dbEmpty reqAda).db reqAda).status = 200 ∧
    ((fullHandler envOk (fullHandler envOk dbEmpty reqAda).db reqAda).db.sessions.filter
        (fun r => r.stripeSessionId == sessionAda.id)).length = 1 ∧
    LogEvent.warnDuplicateSession sessionAda.id ∈
      (fullHandler envOk (fullHandler envOk dbEmpty reqAda).db reqAda).log :=
  duplicate_delivery_idempotent envOk envOk dbEmpty reqAda sessionAda
    rfl rfl rfl rfl rfl (by decide) rfl rfl (by decide)

/-- C3 counterexample: when the line-item lookup fails, the failure is
logged with the session id only — the log entry carries no email — yet the
claim (and spec) say such failures are "logged with the session id and
email". -/
theorem lineItem_failure_log_lacks_email :
    (fullHandler envLineItemsDown dbEmpty reqAda).status = 200 ∧
    (fullHandler envLineItemsDown dbEmpty reqAda).log =
      [.infoCheckoutCompleted "cs_1" (some "new@example.com"),
        .infoSessionSaved "cs_1", .errLineItemsFailed "cs_1"] ∧
    logEmailOf (.errLineItemsFailed "cs_1") = none ∧
    logSessionIdOf (.errLineItemsFailed "cs_1") = some "cs_1" := by
  decide

/-- C3 (amended): once the session row is created or found duplicate, a
line-item lookup failure or user-step failure is caught and logged — the
user-step log carries the session id and the email, the line-item log the
session id only — and the request still answers 200 with the session row
persisted and the users table untouched. -/
theorem entitlement_failures_soft (env : Env) (db : DB) (req : Req)
    (s : SessionObj) (email : String)
    (h1 : req.hasSig = true) (h2 : req.hasSecret = true) (h3 : req.sigOk = true)
    (h4 : req.event.type = "checkout.session.completed")
    (h5 : req.event.data = some s) (hid : s.id ≠ "")
    (hc : env.storeCreate = .normal)
    (hem : cdEmail s.customer_details = some email)
    (hfail : env.lineItems = .fail ∨
      ∃ items, env.lineItems = .ok items ∧ astrologyProductPurchased items = true ∧
        env.userOpFails = true) :
    (fullHandler env db req).status = 200 ∧
    (∃ r ∈ (fullHandler env db req).db.sessions, r.stripeSessionId = s.id) ∧
    (fullHandler env db req).db.users = db.users ∧
    (LogEvent.errLineItemsFailed s.id ∈ (fullHandler env db req).log ∨
      LogEvent.errUserStepFailed email s.id ∈ (fullHandler env db req).log) := by
  rw [fullHandler_completed env db req s h1 h2 h3 h4 h5]
  have hfail2 : env.lineItems = .fail ∨ env.userOpFails = true := by
    rcases hfail with hf | ⟨items, _, _, hu⟩
    · exact Or.inl hf
    · exact Or.inr hu
  by_cases hdup : db.sessions.any (fun r => r.stripeSessionId == s.id) = true
  · rw [handleCompleted_dup env db s hid hc hdup]
    refine ⟨rfl, ?_, ?_, ?_⟩
    · rw [show ((⟨200, (entitlementStep env s db
          [.infoCheckoutCompleted s.id (rawEmail s.customer_details),
            .warnDuplicateSession s.id]).1,
          (entitlementStep env s db
          [.infoCheckoutCompleted s.id (rawEmail s.customer_details),
            .warnDuplicateSession s.id]).2⟩ : HRes)).db.sessions = db.sessions from
        entitlementStep_sessions env s db _]
      obtain ⟨a, ha, hpa⟩ := List.any_eq_true.mp hdup
      exact ⟨a, ha, by simpa using hpa⟩
    · exact entitlementStep_users_fail env s db _ hfail2
    · exact entitlementStep_fail_log env s db _ email hem hfail
  · have hfresh : db.sessions.any (fun r => r.stripeSessionId == s.id) = false := by
      simpa using hdup
    rw [handleCompleted_fresh env db s hid hc hfresh]
    refine ⟨rfl, ?_, ?_, ?_⟩
    · rw [show ((⟨200, (entitlementStep env s
          { db with sessions := db.sessions ++ [mkRow s] }
          [.infoCheckoutCompleted s.id (rawEmail s.customer_details),
            .infoSessionSaved s.id]).1,
          (entitlementStep env s
          { db with sessions := db.sessions ++ [mkRow s] }
          [.infoCheckoutCompleted s.id (rawEmail s.customer_details),
            .infoSessionSaved s.id]).2⟩ : HRes)).db.sessions
          = db.sessions ++ [mkRow s] from entitlementStep_sessions env s _ _]
      exact ⟨mkRow s, by simp, rfl⟩
    · exact entitlementStep_users_fail env s _ _ hfail2
    · exact entitlementStep_fail_log env s _ _ email hem hfail

/-- C3 witness: a concrete line-item lookup outage — 200, row persisted,
no user mutation, failure logged. -/
theorem entitlement_failures_soft_wit :
    (fullHandler envLineItemsDown dbEmpty reqAda).status = 200 ∧
    (∃ r ∈ (fullHandler envLineItemsDown dbEmpty reqAda).db.sessions,
      r.stripeSessionId = sessionAda.id) ∧
    (fullHandler envLineItemsDown dbEmpty reqAda).db.users = dbEmpty.users ∧
    (LogEvent.errLineItemsFailed sessionAda.id ∈
        (fullHandler envLineItemsDown dbEmpty reqAda).log ∨
      LogEvent.errUserStepFailed "new@example.com" sessionAda.id ∈
        (fullHandler envLineItemsDown dbEmpty reqAda).log) :=
  entitlement_failures_soft envLineItemsDown dbEmpty reqAda sessionAda
    "new@example.com" rfl rfl rfl rfl rfl (by decide) rfl rfl (Or.inl rfl)

/-- C7: a completed event with no customer email persists the session row,
answers 200, and runs no user lookup, create, or update. -/
theorem missing_email_noop (env : Env) (db : DB) (req : Req) (s : SessionObj)
    (h1 : req.hasSig = true) (h2 : req.hasSecret = true) (h3 : req.sigOk = true)
    (h4 : req.event.type = "checkout.session.completed")
    (h5 : req.event.data = some s) (hid : s.id ≠ "")
    (hc : env.storeCreate = .normal)
    (hem : cdEmail s.customer_details = none) :
    (fullHandler env db req).status = 200 ∧
    (∃ r ∈ (fullHandler env db req).db.sessions, r.stripeSessionId = s.id) ∧
    (fullHandler env db req).db.users = db.users ∧
    ∀ e ∈ (fullHandler env db req).log, isUserStepLog e = false := by
  rw [fullHandler_completed env db req s h1 h2 h3 h4 h5]
  by_cases hdup : db.sessions.any (fun r => r.stripeSessionId == s.id) = true
  · rw [handleCompleted_dup env db s hid hc hdup,
      entitlementStep_noEmail env s db _ hem]
    refine ⟨rfl, ?_, rfl, ?_⟩
    · obtain ⟨a, ha, hpa⟩ := List.any_eq_true.mp hdup
      exact ⟨a, ha, by simpa using hpa⟩
    · intro e he
      simp at he
      rcases he with rfl | rfl <;> rfl
  · have hfresh : db.sessions.any (fun r => r.stripeSessionId == s.id) = false := by
      simpa using hdup
    rw [handleCompleted_fresh env db s hid hc hfresh,
      entitlementStep_noEmail env s _ _ hem]
    refine ⟨rfl, ?_, rfl, ?_⟩
    · exact ⟨mkRow s, by simp, rfl⟩
    · intro e he
      simp at he
      rcases he with rfl | rfl <;> rfl

/-- C7 witness: a concrete completed event with no email. -/
theorem missing_email_noop_wit :
    (fullHandler envOk dbEmpty reqNoEmail).status = 200 ∧
    (∃ r ∈ (fullHandler envOk dbEmpty reqNoEmail).db.sessions,
      r.stripeSessionId = sessionNoEmail.id) ∧
    (fullHandler envOk dbEmpty reqNoEmail).db.users = dbEmpty.users ∧
    ∀ e ∈ (fullHandler envOk dbEmpty reqNoEmail).log, isUserStepLog e = false :=
  missing_email_noop envOk dbEmpty reqNoEmail sessionNoEmail
    rfl rfl rfl rfl rfl (by decide) rfl rfl

/-- C4 counterexample: a line item whose product reference is the bare
(unexpanded) designated product-id string grants nothing, although the
claim counts it as an id match; the spec-worded test accepts it. -/
theorem bare_product_id_not_matched :
    astrologyPurchasedSpecC4 [bareIdItem] = true ∧
    astrologyProductPurchased [bareIdItem] = false := by
  decide

/-- C4 (amended): entitlement is granted iff some line item has an expanded
product object matching the designated product by id or by exact name; a
bare product-id string never matches, even when it equals the designated
id, so name matching is no fallback for unexpanded references. -/
theorem astrology_membership_characterization (items : List LineItem) :
    astrologyProductPurchased items = true ↔
      ∃ item ∈ items, ∃ pid pname,
        item.product = some (.pobj pid pname) ∧
        (pid = "prod_TUrnEqRRgTx9Gz" ∨ pname = "Astrology Time Zone") := by
  unfold astrologyProductPurchased
  rw [List.any_eq_true]
  constructor
  · rintro ⟨item, hmem, hmatch⟩
    refine ⟨item, hmem, ?_⟩
    unfold itemMatchesAstrology at hmatch
    cases hp : item.product with
    | none =>
      rw [hp] at hmatch
      simp at hmatch
    | some pr =>
      cases pr with
      | pstr s2 =>
        rw [hp] at hmatch
        simp at hmatch
      | pobj pid pname =>
        rw [hp] at hmatch
        simp at hmatch
        exact ⟨pid, pname, rfl, hmatch⟩
  · rintro ⟨item, hmem, pid, pname, hp, hor⟩
    refine ⟨item, hmem, ?_⟩
    unfold itemMatchesAstrology
    rw [hp]
    rcases hor with h | h <;> simp [h]

/-- The entitlement step on a qualifying purchase with no user under the
email: the new user row is appended. -/
theorem entitlementStep_createUser (env : Env) (s : SessionObj) (db : DB)
    (log : List LogEvent) (email : String) (items : List LineItem)
    (hem : cdEmail s.customer_details = some email)
    (hli : env.lineItems = .ok items)
    (hpur : astrologyProductPurchased items = true)
    (hu : env.userOpFails = false)
    (hnone : db.users.find? (fun v => v.email == email) = none) :
    (entitlementStep env s db log).1.users
      = db.users ++ [mkNewUser email (s.customer_details.bind CustomerDetails.name)] := by
  unfold entitlementStep
  rw [hem, hli]
  dsimp only
  rw [if_pos hpur, if_neg (by simp [hu]), hnone]

/-- The entitlement step on a qualifying purchase with an existing user
under the email: only that user gains `hasAstrology = true`. -/
theorem entitlementStep_updateUser (env : Env) (s : SessionObj) (db : DB)
    (log : List LogEvent) (email : String) (items : List LineItem) (u : User)
    (hem : cdEmail s.customer_details = some email)
    (hli : env.lineItems = .ok items)
    (hpur : astrologyProductPurchased items = true)
    (hu : env.userOpFails = false)
    (hfound : db.users.find? (fun v => v.email == email) = some u) :
    (entitlementStep env s db log).1.users
      = db.users.map
          (fun v => if v.email == email then { v with hasAstrology := true } else v) := by
  unfold entitlementStep
  rw [hem, hli]
  dsimp only
  rw [if_pos hpur, if_neg (by simp [hu]), hfound]

/-- Setting `hasAstrology` on the user under an email is idempotent. -/
theorem setAstro_map_idem (email : String) (users : List User) :
    ((users.map
        (fun v => if v.email == email then { v with hasAstrology := true } else v)).map
      (fun v => if v.email == email then { v with hasAstrology := true } else v))
      = users.map
          (fun v => if v.email == email then { v with hasAstrology := true } else v) := by
  rw [List.map_map]
  apply List.map_congr_left
  intro v _
  by_cases h : v.email == email
  · simp [Function.comp, h]
  · simp [Function.comp, h]

/-- Setting `hasAstrology` keeps the user under an email findable. -/
theorem find?_isSome_map_setAstro (email : String) (users : List User)
    (h : (users.find? (fun v => v.email == email)).isSome = true) :
    ((users.map
        (fun v => if v.email == email then { v with hasAstrology := true } else v)).find?
      (fun v => v.email == email)).isSome = true := by
  rw [List.find?_isSome] at h ⊢
  obtain ⟨v, hv, hpv⟩ := h
  refine ⟨if v.email == email then { v with hasAstrology := true } else v,
    List.mem_map_of_mem _ hv, ?_⟩
  rw [if_pos hpv]
  exact hpv

/-- C5 counterexample: a qualifying purchase whose display name is the
single token "Ada" creates the user with lastName "User" although a display
name is present, so the placeholder is not reserved for the no-name case. -/
theorem single_token_name_gets_placeholder :
    sessionAdaOnly.customer_details.bind CustomerDetails.name = some "Ada" ∧
    (fullHandler envOk dbEmpty reqAdaOnly).db.users =
      [⟨"Ada", "User", "new@example.com", .NonMember, true⟩] := by
  decide

/-- C5 (amended): for a qualifying purchase with no existing user, the user
created has userType NonMember, hasAstrology true, firstName equal to the
first space-token of the display name when that token is nonempty (else the
placeholder "Unknown"), and lastName equal to the space-join of the
remaining tokens when that join is nonempty (else the placeholder "User");
with no display name both placeholders are used. -/
theorem new_user_fields (env : Env) (db : DB) (req : Req) (s : SessionObj)
    (email : String)
    (h1 : req.hasSig = true) (h2 : req.hasSecret = true) (h3 : req.sigOk = true)
    (h4 : req.event.type = "checkout.session.completed")
    (h5 : req.event.data = some s) (hid : s.id ≠ "")
    (hc : env.storeCreate = .normal)
    (hem : cdEmail s.customer_details = some email)
    (hitems : ∃ items, env.lineItems = .ok items ∧
      astrologyProductPurchased items = true)
    (hu : env.userOpFails = false)
    (hnone : db.users.find? (fun v => v.email == email) = none) :
    (fullHandler env db req).db.users = db.users ++
      [{ firstName :=
            (match s.customer_details.bind CustomerDetails.name with
            | none => "Unknown"
            | some nm =>
              if (jsSplitSpace nm).headD "" = "" then "Unknown"
              else (jsSplitSpace nm).headD ""),
          lastName :=
            (match s.customer_details.bind CustomerDetails.name with
            | none => "User"
            | some nm =>
              if joinSpace ((jsSplitSpace nm).drop 1) = "" then "User"
              else joinSpace ((jsSplitSpace nm).drop 1)),
          email := email,
          userType := .NonMember,
          hasAstrology := true }] := by
  obtain ⟨items, hli, hpur⟩ := hitems
  rw [fullHandler_completed env db req s h1 h2 h3 h4 h5]
  have hfields : mkNewUser email (s.customer_details.bind CustomerDetails.name)
      = { firstName :=
            (match s.customer_details.bind CustomerDetails.name with
            | none => "Unknown"
            | some nm =>
              if (jsSplitSpace nm).headD "" = "" then "Unknown"
              else (jsSplitSpace nm).headD ""),
          lastName :=
            (match s.customer_details.bind CustomerDetails.name with
            | none => "User"
            | some nm =>
              if joinSpace ((jsSplitSpace nm).drop 1) = "" then "User"
              else joinSpace ((jsSplitSpace nm).drop 1)),
          email := email,
          userType := .NonMember,
          hasAstrology := true } := by
    cases s.customer_details.bind CustomerDetails.name <;> rfl
  by_cases hdup : db.sessions.any (fun r => r.stripeSessionId == s.id) = true
  · rw [handleCompleted_dup env db s hid hc hdup, ← hfields]
    exact entitlementStep_createUser env s db _ email items hem hli hpur hu hnone
  · have hfresh : db.sessions.any (fun r => r.stripeSessionId == s.id) = false := by
      simpa using hdup
    rw [handleCompleted_fresh env db s hid hc hfresh, ← hfields]
    exact entitlementStep_createUser env s
      { db with sessions := db.sessions ++ [mkRow s] } _ email items
      hem hli hpur hu hnone

/-- C5 witness: the new-customer path of the spec, with display name
"Ada Lovelace" — the created user is Ada / Lovelace / NonMember / true. -/
theorem new_user_fields_wit :
    (fullHandler envOk dbEmpty reqAda).db.users = dbEmpty.users ++
      [{ firstName :=
            (match sessionAda.customer_details.bind CustomerDetails.name with
            | none => "Unknown"
            | some nm =>
              if (jsSplitSpace nm).headD "" = "" then "Unknown"
              else (jsSplitSpace nm).headD ""),
          lastName :=
            (match sessionAda.customer_details.bind CustomerDetails.name with
            | none => "User"
            | some nm =>
              if joinSpace ((jsSplitSpace nm).drop 1) = "" then "User"
              else joinSpace ((jsSplitSpace nm).drop 1)),
          email := "new@example.com",
          userType := .NonMember,
          hasAstrology := true }] :=
  new_user_fields envOk dbEmpty reqAda sessionAda "new@example.com"
    rfl rfl rfl rfl rfl (by decide) rfl rfl
    ⟨[matchingItem], rfl, by decide⟩ rfl rfl

/-- Completed branch of a qualifying purchase by an existing user: 200, the
update, and a session row under this id afterwards. -/
theorem handleCompleted_update_users (env : Env) (db : DB) (s : SessionObj)
    (email : String) (items : List LineItem)
    (hid : s.id ≠ "") (hc : env.storeCreate = .normal)
    (hem : cdEmail s.customer_details = some email)
    (hli : env.lineItems = .ok items)
    (hpur : astrologyProductPurchased items = true)
    (hu : env.userOpFails = false)
    (hfound : (db.users.find? (fun v => v.email == email)).isSome = true) :
    (handleCompleted env db s).db.users
      = db.users.map
          (fun v => if v.email == email then { v with hasAstrology := true } else v) ∧
    (handleCompleted env db s).db.sessions.any
      (fun r => r.stripeSessionId == s.id) = true := by
  obtain ⟨u, hufind⟩ := Option.isSome_iff_exists.mp hfound
  by_cases hdup : db.sessions.any (fun r => r.stripeSessionId == s.id) = true
  · rw [handleCompleted_dup env db s hid hc hdup]
    constructor
    · exact entitlementStep_updateUser env s db _ email items u hem hli hpur hu hufind
    · rw [show ((⟨200, (entitlementStep env s db
          [.infoCheckoutCompleted s.id (rawEmail s.customer_details),
            .warnDuplicateSession s.id]).1,
          (entitlementStep env s db
          [.infoCheckoutCompleted s.id (rawEmail s.customer_details),
            .warnDuplicateSession s.id]).2⟩ : HRes)).db.sessions = db.sessions from
        entitlementStep_sessions env s db _]
      exact hdup
  · have hfresh : db.sessions.any (fun r => r.stripeSessionId == s.id) = false := by
      simpa using hdup
    rw [handleCompleted_fresh env db s hid hc hfresh]
    constructor
    · exact entitlementStep_updateUser env s
        { db with sessions := db.sessions ++ [mkRow s] } _ email items u
        hem hli hpur hu hufind
    · rw [show ((⟨200, (entitlementStep env s
          { db with sessions := db.sessions ++ [mkRow s] }
          [.infoCheckoutCompleted s.id (rawEmail s.customer_details),
            .infoSessionSaved s.id]).1,
          (entitlementStep env s
          { db with sessions := db.sessions ++ [mkRow s] }
          [.infoCheckoutCompleted s.id (rawEmail s.customer_details),
            .infoSessionSaved s.id]).2⟩ : HRes)).db.sessions
          = db.sessions ++ [mkRow s] from entitlementStep_sessions env s _ _]
      simp [List.any_append, mkRow]

/-- C6: a qualifying purchase by an existing user sets `hasAstrology` and
changes nothing else — no other field of any user row — and repeating the
same delivery leaves the users table fixed. -/
theorem existing_user_update_frame (env : Env) (db : DB) (req : Req)
    (s : SessionObj) (email : String)
    (h1 : req.hasSig = true) (h2 : req.hasSecret = true) (h3 : req.sigOk = true)
    (h4 : req.event.type = "checkout.session.completed")
    (h5 : req.event.data = some s) (hid : s.id ≠ "")
    (hc : env.storeCreate = .normal)
    (hem : cdEmail s.customer_details = some email)
    (hitems : ∃ items, env.lineItems = .ok items ∧
      astrologyProductPurchased items = true)
    (hu : env.userOpFails = false)
    (hfound : (db.users.find? (fun v => v.email == email)).isSome = true) :
    (fullHandler env db req).db.users
      = db.users.map
          (fun v => if v.email == email then { v with hasAstrology := true } else v) ∧
    (fullHandler env (fullHandler env db req).db req).db.users
      = (fullHandler env db req).db.users := by
  obtain ⟨items, hli, hpur⟩ := hitems
  rw [fullHandler_completed env db req s h1 h2 h3 h4 h5]
  obtain ⟨hu1, hs1⟩ := handleCompleted_update_users env db s email items
    hid hc hem hli hpur hu hfound
  refine ⟨hu1, ?_⟩
  rw [fullHandler_completed env (handleCompleted env db s).db req s h1 h2 h3 h4 h5]
  rw [handleCompleted_dup env (handleCompleted env db s).db s hid hc hs1]
  have hfound2 : ((handleCompleted env db s).db.users.find?
      (fun v => v.email == email)).isSome = true := by
    rw [hu1]
    exact find?_isSome_map_setAstro email db.users hfound
  obtain ⟨u2, hufind2⟩ := Option.isSome_iff_exists.mp hfound2
  have hstep := entitlementStep_updateUser env s (handleCompleted env db s).db
    [.infoCheckoutCompleted s.id (rawEmail s.customer_details),
      .warnDuplicateSession s.id] email items u2 hem hli hpur hu hufind2
  refine hstep.trans ?_
  rw [hu1]
  exact setAstro_map_idem email db.users

/-- C6 witness: the existing user Alice Smith (Free, no astrology) under
the purchasing email gains only the entitlement flag, and a second delivery
changes nothing. -/
theorem existing_user_update_frame_wit :
    (fullHandler envOk dbWithAda reqAda).db.users
      = dbWithAda.users.map
          (fun v => if v.email == "new@example.com" then { v with hasAstrology := true } else v) ∧
    (fullHandler envOk (fullHandler envOk dbWithAda reqAda).db reqAda).db.users
      = (fullHandler envOk dbWithAda reqAda).db.users :=
  existing_user_update_frame envOk dbWithAda reqAda sessionAda "new@example.com"
    rfl rfl rfl rfl rfl (by decide) rfl rfl
    ⟨[matchingItem], rfl, by decide⟩ rfl (by decide)

end StripeWebhook
